import Mathlib

/-!
Verification development for the Medibot-MBSE conversational triage backend
(`medibot-backend/python/aiagent`). The Python source is shallowly embedded:
the loosely-typed dicts passed between pipeline stages become records whose
fields are `Option`-typed (a `none` models an absent key or a `None` value),
Python `dict.get(k, d)` becomes `Option.getD`, FastAPI exception flow becomes
`Except HTTPException`, and the two external language-model services are
passed in as explicit oracle parameters.
-/

/-- Request body of `POST /api/chat` and `POST /api/chat/triage`
(`api/main.py`, class `ChatRequest`). -/
structure ChatRequest where
  message : String
  conversation_id : Option String
  user_id : Option String
  include_history : Bool
  conversation_history : Option (List String)
deriving Repr, DecidableEq

/-- Structured symptom extraction (`api/main.py`, class `SymptomFrame`). -/
structure SymptomFrame where
  chief_complaint : Option String
  duration : Option String
  severity_self : Option String
  age_band : Option String
  associated_symptoms : List String
deriving Repr, DecidableEq

/-- Triage output dict as read by the endpoints (`api/main.py`, class
`TriageResult`); fields are optional because the endpoints read the workflow
state dict with `.get` and defaults. Confidence is a rational standing for
the Python float. -/
structure TriageDict where
  severity_level : Option String
  rationale : Option String
  recommended_action : Option String
  red_flags_triggered : List String
  care_instructions : List String
  confidence : Option ℚ
deriving Repr, DecidableEq

/-- Action plan dict (`api/main.py`, class `ActionPlan`). -/
structure ActionDict where
  type : Option String
  specialization : Option String
  urgency : Option String
  instructions : List String
  resources : List String
deriving Repr, DecidableEq

/-- Summary pair (`api/main.py`, class `SummaryResult`). -/
structure SummaryResult where
  patient_summary : String
  clinician_summary : String
deriving Repr, DecidableEq

/-- The state dict returned by `care_app.invoke` as the endpoints read it
(`result_state.get(...)` with empty-dict defaults). -/
structure WorkflowState where
  case_id : Option String
  symptoms : SymptomFrame
  triage : TriageDict
  action : ActionDict
  summary : SummaryResult
deriving Repr, DecidableEq

/-- Initial state handed to `care_app.invoke` by the endpoints. -/
structure WorkflowInput where
  user_input : String
  case_id : Option String
deriving Repr, DecidableEq

/-- FastAPI `HTTPException` carrying a status code and a detail string. -/
structure HTTPException where
  status_code : Nat
  detail : String
deriving Repr, DecidableEq

/-- Response body of `POST /api/chat` (`api/main.py`, class `ChatResponse`).
`case_id` is optional because the handler passes `result_state.get("case_id")`
straight through. -/
structure ChatResponse where
  case_id : Option String
  symptoms : SymptomFrame
  triage : TriageDict
  action : ActionDict
  summary : SummaryResult
  message : String
  status : String
deriving Repr, DecidableEq

/-- The emergency response text of `generate_user_message` (`api/main.py`). -/
def red_message : String :=
  "⚠️ Based on your symptoms, this requires immediate medical attention. Please call emergency services or go to the nearest emergency room right away. Your safety is our priority."

/-- The appointment-booking response text of `generate_user_message`. -/
def amber_message : String :=
  "I recommend speaking with a healthcare provider soon about your symptoms. I can help you book an appointment with a doctor or nurse practitioner. In the meantime, here's what you can do..."

/-- The self-care response text of `generate_user_message`. -/
def green_message : String :=
  "Based on what you've told me, this appears manageable with self-care. I'll provide some recommendations, but please monitor your symptoms. If things worsen, don't hesitate to seek medical advice."

/-- `generate_user_message(triage, action)` of `api/main.py`: picks the
conversational reply from `triage.get("severity_level", "UNKNOWN")`; the
`action` argument is unused in the source body as well. -/
def generate_user_message (triage : TriageDict) (action : ActionDict) : String :=
  let severity := triage.severity_level.getD "UNKNOWN"
  if severity = "RED" then red_message
  else if severity = "AMBER" then amber_message
  else green_message

/-- The deterministic patient-summary text built by `generate_summaries`
(`chains/summary_chain.py`, lines building `patient_text`), before the
optional language-model rephrasing. -/
def patient_template (triage_result : TriageDict) (action_plan : ActionDict) : String :=
  let severity := triage_result.severity_level.getD "UNKNOWN"
  let action_type := action_plan.type.getD "review"
  let instructions := action_plan.instructions
  "Based on your symptoms, you've been triaged as " ++ severity ++ ". "
    ++ ("Recommended action: " ++ action_type ++ ". ")
    ++ (if instructions.isEmpty then ""
        else "Instructions: " ++ String.intercalate "; " (instructions.take 3) ++ ". ")
    ++ "This is not a medical diagnosis. Seek professional help if symptoms worsen."

/-- `generate_summaries(user_input, symptoms, triage_result, action_plan)` of
`chains/summary_chain.py`. The Text Generation Service is the oracle `llm`
(`ChatOllama` + prompt + `invoke`, returning the rephrased content or raising);
`ollama_available` models the `OLLAMA_AVAILABLE` import flag. On any oracle
failure the deterministic `patient_text` is kept (`except: pass`). -/
def generate_summaries (ollama_available : Bool) (llm : String → Except String String)
    (user_input : String) (symptoms : SymptomFrame)
    (triage_result : TriageDict) (action_plan : ActionDict) : SummaryResult :=
  let severity := triage_result.severity_level.getD "UNKNOWN"
  let patient_text := patient_template triage_result action_plan
  let clinician_text :=
    "Chief complaint: " ++ symptoms.chief_complaint.getD user_input ++ ". "
      ++ ("Duration: " ++ symptoms.duration.getD "unknown" ++ ". ")
      ++ ("Associated symptoms: " ++ String.intercalate ", " symptoms.associated_symptoms ++ ". ")
      ++ ("Triage level: " ++ severity ++ ". ")
      ++ ("Rationale: " ++ triage_result.rationale.getD "N/A" ++ ". ")
      ++ (if triage_result.red_flags_triggered.isEmpty then ""
          else "Red flags: " ++ String.intercalate ", " triage_result.red_flags_triggered ++ ". ")
      ++ ("Recommended action: " ++ triage_result.recommended_action.getD "review" ++ ".")
  let patient_text :=
    if ollama_available then
      match llm patient_text with
      | Except.ok content => content.trim
      | Except.error _ => patient_text
    else patient_text
  { patient_summary := patient_text, clinician_summary := clinician_text }

/-- Shared disclaimer string of `chat_triage` (`api/main.py`). -/
def disclaimer_text : String :=
  "This is AI-generated advice and not a substitute for professional medical consultation."

/-- Python `a or b` on optional strings (`request.conversation_id or
request.user_id` in `chat_triage`): an empty string is falsy. -/
def py_or (a b : Option String) : Option String :=
  match a with
  | some s => if s = "" then b else some s
  | none => b

/-- The `severity_map.get(severity_level, "unknown")` lookup of `chat_triage`
(`api/main.py`, lines 218-226). -/
def severity_map_get (severity_level : String) : String :=
  if severity_level = "RED" then "emergency"
  else if severity_level = "AMBER" then "urgent"
  else if severity_level = "YELLOW" then "referral"
  else if severity_level = "GREEN" then "self_care"
  else "unknown"

/-- Response body of `POST /api/chat/triage` (`chat_triage` in `api/main.py`);
field names follow the returned dict. -/
structure ChatTriageResponse where
  severity : String
  confidence : ℚ
  recommendation : String
  suggestedActions : List String
  disclaimer : String
  needsEscalation : Bool
  carePathway : ActionDict
  actionPlan : ActionDict
  needsMoreInfo : Bool
  possibleConditions : List String
deriving Repr, DecidableEq

/-- The hard-coded fallback dict that `chat_triage` returns from its
`except` block instead of an error (`api/main.py`, lines 248-260). The
`carePathway` and `actionPlan` dicts carry only `type` and `urgency`. -/
def chat_triage_fallback : ChatTriageResponse :=
  { severity := "referral"
    confidence := 1/2
    recommendation := "I recommend speaking with a healthcare provider about your symptoms. Would you like me to help you book an appointment?"
    suggestedActions := ["Monitor your symptoms", "Contact your healthcare provider", "Seek care if symptoms worsen"]
    disclaimer := disclaimer_text
    needsEscalation := false
    carePathway := { type := some "referral", specialization := none, urgency := some "routine",
                     instructions := [], resources := [] }
    actionPlan := { type := some "referral", specialization := none, urgency := some "routine",
                    instructions := [], resources := [] }
    needsMoreInfo := true
    possibleConditions := [] }

/-- Initial workflow state built by `process_chat`:
`{"user_input": request.message, "case_id": request.conversation_id}`. -/
def process_chat_input (request : ChatRequest) : WorkflowInput :=
  { user_input := request.message, case_id := request.conversation_id }

/-- `POST /api/chat` handler `process_chat` (`api/main.py`, lines 128-168).
The compiled workflow graph is the oracle `invoke`; a raised exception is its
`Except.error` case, which the handler converts into
`HTTPException(500, "AI processing failed: " + str(e))`. Pydantic re-validation
of the success payload is not re-modelled: the state fields are passed through
as the handler reads them. -/
def process_chat (invoke : WorkflowInput → Except String WorkflowState)
    (request : ChatRequest) : Except HTTPException ChatResponse :=
  match invoke (process_chat_input request) with
  | Except.error e =>
      Except.error { status_code := 500, detail := "AI processing failed: " ++ e }
  | Except.ok result_state =>
      Except.ok
        { case_id := result_state.case_id
          symptoms := result_state.symptoms
          triage := result_state.triage
          action := result_state.action
          summary := result_state.summary
          message := generate_user_message result_state.triage result_state.action
          status := "success" }

/-- Initial workflow state built by `chat_triage`:
`case_id = request.conversation_id or request.user_id`. -/
def chat_triage_input (request : ChatRequest) : WorkflowInput :=
  { user_input := request.message, case_id := py_or request.conversation_id request.user_id }

/-- `POST /api/chat/triage` handler `chat_triage` (`api/main.py`, lines
197-260): on success it maps the severity vocabulary and builds the NestJS
response dict (`needsMoreInfo` is `len(associated_symptoms) < 2`); on any
workflow exception it returns `chat_triage_fallback` instead of an error. -/
def chat_triage (invoke : WorkflowInput → Except String WorkflowState)
    (request : ChatRequest) : ChatTriageResponse :=
  match invoke (chat_triage_input request) with
  | Except.error _ => chat_triage_fallback
  | Except.ok result_state =>
      let severity_level := result_state.triage.severity_level.getD "UNKNOWN"
      { severity := severity_map_get severity_level
        confidence := result_state.triage.confidence.getD (4/5)
        recommendation := generate_user_message result_state.triage result_state.action
        suggestedActions := result_state.triage.care_instructions
        disclaimer := disclaimer_text
        needsEscalation := severity_level == "RED"
        carePathway := result_state.action
        actionPlan := result_state.action
        needsMoreInfo := decide (result_state.symptoms.associated_symptoms.length < 2)
        possibleConditions := result_state.triage.red_flags_triggered }

/-- Persisted Case record (Case Store layout per the spec, §6). -/
structure CaseRecord where
  case_id : String
  turns : List (String × String)
  symptom_frame : SymptomFrame
  triage : TriageDict
  action : ActionDict
  summary : SummaryResult
  status : String
deriving Repr, DecidableEq

/-- Modelled from the spec: `load_case` of `utils/json_store.py` is not under
`src/`; per the spec the Case Store is a "durable mapping from case identifier
to the latest conversation state", "retrieved by exact key match only",
returning nothing when the id is absent. The store is an explicit association
list. -/
def load_case (store : List (String × CaseRecord)) (case_id : String) : Option CaseRecord :=
  (store.find? (fun p => p.fst = case_id)).map Prod.snd

/-- Starlette renders `str(HTTPException)` as `"<code>: <detail>"`; this is the
`str(e)` the outer handler of `get_case` puts into its 500 detail. -/
def http_exception_str (e : HTTPException) : String :=
  toString e.status_code ++ ": " ++ e.detail

/-- The `try` body of `get_case` (`api/main.py`, lines 266-270): load the
case, raise `HTTPException(404, "Case not found")` when falsy, else return. -/
def get_case_body (store : List (String × CaseRecord)) (case_id : String) :
    Except HTTPException CaseRecord :=
  match load_case store case_id with
  | none => Except.error { status_code := 404, detail := "Case not found" }
  | some case_data => Except.ok case_data

/-- `GET /api/case/{case_id}` handler `get_case` (`api/main.py`, lines
263-272): the body runs under `except Exception as e`, which catches the
handler's own `HTTPException` (a subclass of `Exception`) and re-raises it as
`HTTPException(500, str(e))`. -/
def get_case (store : List (String × CaseRecord)) (case_id : String) :
    Except HTTPException CaseRecord :=
  match get_case_body store case_id with
  | Except.ok case_data => Except.ok case_data
  | Except.error e => Except.error { status_code := 500, detail := http_exception_str e }

/-- Raw JSON body of a chat request before pydantic validation: `none` models
a missing field. -/
structure RawChatBody where
  message : Option String
  conversation_id : Option String
  user_id : Option String
  include_history : Option Bool
  conversation_history : Option (List String)
deriving Repr, DecidableEq

/-- Pydantic validation of `ChatRequest` (`api/main.py`, lines 41-46):
`message` is declared `str = Field(...)`, i.e. required but with no length or
content constraint, so the only 422 this model produces is a missing
`message`; the optional fields default to `None` and `include_history` to
`True`. -/
def validate_chat_request (body : RawChatBody) : Except Nat ChatRequest :=
  match body.message with
  | none => Except.error 422
  | some m =>
      Except.ok
        { message := m
          conversation_id := body.conversation_id
          user_id := body.user_id
          include_history := body.include_history.getD true
          conversation_history := body.conversation_history }

/-- Modelled from the spec: a red-flag rule of the Triage Classifier
(`graph/care_flow.py` is not under `src/`). Per §4.3 a rule has an identifier
and a deterministic match over the raw message and the symptom frame. -/
structure RedFlagRule where
  rule_id : String
  hits : String → SymptomFrame → Bool

/-- Identifiers of the rules of one tier that fire, in evaluation order. -/
def triggered_ids (rules : List RedFlagRule) (message : String) (frame : SymptomFrame) :
    List String :=
  (rules.filter fun r => r.hits message frame).map RedFlagRule.rule_id

/-- Clamp a rational to `[0,1]`. -/
def clamp01 (q : ℚ) : ℚ := max 0 (min 1 q)

/-- Number of populated fields of a symptom frame, the input of the spec's
confidence function. -/
def populated_fields (frame : SymptomFrame) : Nat :=
  (if frame.chief_complaint.isSome then 1 else 0)
    + (if frame.duration.isSome then 1 else 0)
    + (if frame.severity_self.isSome then 1 else 0)
    + (if frame.age_band.isSome then 1 else 0)
    + (if frame.associated_symptoms.isEmpty then 0 else 1)

/-- Modelled from the spec: `classify(frame, message)` of the Triage
Classifier (`graph/care_flow.py` is not under `src/`). Per §4.3: RED rules
are evaluated before AMBER rules before the GREEN default; the first tier
with at least one triggered rule wins; `red_flags_triggered` lists the
winning tier's matches in evaluation order; no match at any tier defaults to
GREEN with an empty list and the default rationale; `confidence` grows with
the number of populated frame fields, clamped to `[0,1]`; the recommended
action follows the severity tier. -/
def classify (red_rules amber_rules : List RedFlagRule)
    (frame : SymptomFrame) (message : String) : TriageDict :=
  let confidence := clamp01 ((populated_fields frame : ℚ) / 5)
  match triggered_ids red_rules message frame, triggered_ids amber_rules message frame with
  | [], [] =>
      { severity_level := some "GREEN"
        rationale := some "no red flags identified"
        recommended_action := some "self-care"
        red_flags_triggered := []
        care_instructions := []
        confidence := some confidence }
  | [], a :: rest =>
      { severity_level := some "AMBER"
        rationale := some ("Rules triggered: " ++ String.intercalate ", " (a :: rest))
        recommended_action := some "referral"
        red_flags_triggered := a :: rest
        care_instructions := []
        confidence := some confidence }
  | r :: rest, _ =>
      { severity_level := some "RED"
        rationale := some ("Rules triggered: " ++ String.intercalate ", " (r :: rest))
        recommended_action := some "emergency"
        red_flags_triggered := r :: rest
        care_instructions := []
        confidence := some confidence }

/-- C10: `generate_user_message` returns the emergency-room message exactly
for severity "RED", the appointment-booking message exactly for "AMBER", and
for every other severity value — including a missing key (defaulted to
"UNKNOWN"), "YELLOW", or any unrecognized string — the self-care message
reserved for GREEN. -/
theorem c10_generate_user_message_cases (triage : TriageDict) (action : ActionDict) :
    (triage.severity_level = some "RED" → generate_user_message triage action = red_message) ∧
    (triage.severity_level = some "AMBER" → generate_user_message triage action = amber_message) ∧
    (∀ s : String, triage.severity_level = some s → s ≠ "RED" → s ≠ "AMBER" →
      generate_user_message triage action = green_message) ∧
    (triage.severity_level = none → generate_user_message triage action = green_message) := by
  refine ⟨?_, ?_, ?_, ?_⟩
  · intro h; simp [generate_user_message, h]
  · intro h; simp [generate_user_message, h, amber_message]
  · intro s h hr ha; simp [generate_user_message, h, hr, ha]
  · intro h; simp [generate_user_message, h]

/-- C10 witness: the four cases evaluated at concrete triage dicts (severity
"RED", "AMBER", "YELLOW", and a missing severity key). -/
theorem c10_generate_user_message_cases_witness :
    (generate_user_message
        { severity_level := some "RED", rationale := none, recommended_action := none,
          red_flags_triggered := [], care_instructions := [], confidence := none }
        { type := none, specialization := none, urgency := none, instructions := [], resources := [] }
      = red_message) ∧
    (generate_user_message
        { severity_level := some "AMBER", rationale := none, recommended_action := none,
          red_flags_triggered := [], care_instructions := [], confidence := none }
        { type := none, specialization := none, urgency := none, instructions := [], resources := [] }
      = amber_message) ∧
    (generate_user_message
        { severity_level := some "YELLOW", rationale := none, recommended_action := none,
          red_flags_triggered := [], care_instructions := [], confidence := none }
        { type := none, specialization := none, urgency := none, instructions := [], resources := [] }
      = green_message) ∧
    (generate_user_message
        { severity_level := none, rationale := none, recommended_action := none,
          red_flags_triggered := [], care_instructions := [], confidence := none }
        { type := none, specialization := none, urgency := none, instructions := [], resources := [] }
      = green_message) :=
  ⟨(c10_generate_user_message_cases _ _).1 rfl,
   (c10_generate_user_message_cases _ _).2.1 rfl,
   (c10_generate_user_message_cases _ _).2.2.1 "YELLOW" rfl (by decide) (by decide),
   (c10_generate_user_message_cases _ _).2.2.2 rfl⟩

/-- C4: the clinician summary of `generate_summaries` is a deterministic
function of the structured inputs: it is identical across calls regardless of
the availability or behaviour of the Text Generation Service oracle. -/
theorem c4_clinician_summary_deterministic (av₁ av₂ : Bool)
    (llm₁ llm₂ : String → Except String String) (user_input : String)
    (symptoms : SymptomFrame) (triage_result : TriageDict) (action_plan : ActionDict) :
    (generate_summaries av₁ llm₁ user_input symptoms triage_result action_plan).clinician_summary
      = (generate_summaries av₂ llm₂ user_input symptoms triage_result action_plan).clinician_summary := by
  rfl

/-- C5: when the optional Text Generation Service call fails (service
unavailable, or the call raises for any reason — timeout, malformed response),
`generate_summaries` still returns, with the deterministic patient template
verbatim as `patient_summary`. -/
theorem c5_patient_summary_fallback (ollama_available : Bool)
    (llm : String → Except String String) (user_input : String)
    (symptoms : SymptomFrame) (triage_result : TriageDict) (action_plan : ActionDict)
    (err : String)
    (h : ollama_available = false ∨ llm (patient_template triage_result action_plan) = Except.error err) :
    (generate_summaries ollama_available llm user_input symptoms triage_result action_plan).patient_summary
      = patient_template triage_result action_plan := by
  rcases h with h | h
  · subst h; rfl
  · cases ollama_available
    · rfl
    · simp [generate_summaries, h]

/-- C5 witness: a concrete frame and triage with an always-failing oracle. -/
theorem c5_patient_summary_fallback_witness :
    (generate_summaries true (fun _ => Except.error "timeout") "I have a cough"
        { chief_complaint := some "cough", duration := some "3 days", severity_self := none,
          age_band := none, associated_symptoms := ["fatigue"] }
        { severity_level := some "GREEN", rationale := some "no red flags identified",
          recommended_action := some "self-care", red_flags_triggered := [],
          care_instructions := [], confidence := some (3/5) }
        { type := some "self_care", specialization := none, urgency := some "routine",
          instructions := ["rest", "fluids"], resources := [] }).patient_summary
      = patient_template
          { severity_level := some "GREEN", rationale := some "no red flags identified",
            recommended_action := some "self-care", red_flags_triggered := [],
            care_instructions := [], confidence := some (3/5) }
          { type := some "self_care", specialization := none, urgency := some "routine",
            instructions := ["rest", "fluids"], resources := [] } :=
  c5_patient_summary_fallback true (fun _ => Except.error "timeout") "I have a cough"
    _ _ _ "timeout" (Or.inr rfl)

/-- C2: if any RED-tier red-flag rule matches the message and frame, the
classifier's result has `severity_level = RED` and a non-empty
`red_flags_triggered` list, regardless of how many AMBER-tier rules also
match (GREEN is the default tier and has no rules). -/
theorem c2_red_rule_forces_red (red_rules amber_rules : List RedFlagRule)
    (frame : SymptomFrame) (message : String) (r : RedFlagRule)
    (hr : r ∈ red_rules) (hm : r.hits message frame = true) :
    (classify red_rules amber_rules frame message).severity_level = some "RED" ∧
    (classify red_rules amber_rules frame message).red_flags_triggered ≠ [] := by
  have hmem : r ∈ red_rules.filter fun rule => rule.hits message frame :=
    List.mem_filter.mpr ⟨hr, hm⟩
  have hid : r.rule_id ∈ triggered_ids red_rules message frame :=
    List.mem_map_of_mem _ hmem
  obtain ⟨a, rest, hco⟩ := List.exists_cons_of_ne_nil (List.ne_nil_of_mem hid)
  constructor <;> simp [classify, hco]

/-- Modelled from the spec: a sample RED-tier rule in the style of §4.3
("presence of phrases indicating chest pain + shortness of breath"). -/
def chest_pain_rule : RedFlagRule :=
  { rule_id := "red_chest_pain"
    hits := fun _ frame =>
      frame.chief_complaint == some "chest pain"
        && frame.associated_symptoms.contains "shortness of breath" }

/-- C2 witness: the sample RED rule fires on the spec's RED scenario message,
forcing severity RED with a non-empty red-flag list even with an AMBER rule
present. -/
theorem c2_red_rule_forces_red_witness :
    (classify [chest_pain_rule]
        [{ rule_id := "amber_persistent_cough", hits := fun _ _ => true }]
        { chief_complaint := some "chest pain", duration := none, severity_self := none,
          age_band := none, associated_symptoms := ["shortness of breath"] }
        "severe chest pain radiating to my left arm, I cannot breathe").severity_level
      = some "RED" ∧
    (classify [chest_pain_rule]
        [{ rule_id := "amber_persistent_cough", hits := fun _ _ => true }]
        { chief_complaint := some "chest pain", duration := none, severity_self := none,
          age_band := none, associated_symptoms := ["shortness of breath"] }
        "severe chest pain radiating to my left arm, I cannot breathe").red_flags_triggered
      ≠ [] :=
  c2_red_rule_forces_red _ _ _ _ chest_pain_rule (List.mem_singleton.mpr rfl) (by decide)

/-- C3: the severity level produced by the classifier is always exactly one
of GREEN, AMBER or RED (in particular it is never absent, and no fourth value
such as YELLOW or UNKNOWN is produced by the core triage path). -/
theorem c3_severity_level_closed (red_rules amber_rules : List RedFlagRule)
    (frame : SymptomFrame) (message : String) :
    (classify red_rules amber_rules frame message).severity_level = some "GREEN" ∨
    (classify red_rules amber_rules frame message).severity_level = some "AMBER" ∨
    (classify red_rules amber_rules frame message).severity_level = some "RED" := by
  rcases h1 : triggered_ids red_rules message frame with _ | ⟨a, l⟩ <;>
    rcases h2 : triggered_ids amber_rules message frame with _ | ⟨b, m⟩ <;>
      simp [classify, h1, h2]

/-- C1 counterexample: with a workflow invocation that raises ("boom"),
`process_chat` does not return a conservative AMBER/referral fallback — it
propagates an `HTTPException(500)` whose detail embeds the raw exception
text; and even the fallback that `chat_triage` does return carries severity
string "referral", which is not the image of AMBER under the endpoint's own
severity map ("urgent"). -/
theorem c1_process_chat_propagates_counterexample :
    process_chat (fun _ => Except.error "boom")
        { message := "I am feeling unwell", conversation_id := none, user_id := some "u1",
          include_history := true, conversation_history := none }
      = Except.error { status_code := 500, detail := "AI processing failed: boom" } ∧
    chat_triage_fallback.severity = "referral" ∧
    severity_map_get "AMBER" = "urgent" ∧ "referral" ≠ "urgent" :=
  ⟨rfl, rfl, rfl, by decide⟩

/-- C1 amended: when the workflow invocation raises, `chat_triage` returns
the hard-coded fallback dict (severity string "referral", routine referral
action plan) instead of an error, while `process_chat` propagates an
`HTTPException(500)` whose detail is "AI processing failed: " followed by the
exception text. -/
theorem c1_failure_behaviour (invoke : WorkflowInput → Except String WorkflowState)
    (request : ChatRequest) (e : String)
    (h : ∀ inp, invoke inp = Except.error e) :
    process_chat invoke request
      = Except.error { status_code := 500, detail := "AI processing failed: " ++ e } ∧
    chat_triage invoke request = chat_triage_fallback := by
  constructor
  · simp [process_chat, h]
  · simp [chat_triage, h]

/-- C1 witness: the amended behaviour evaluated at a failing workflow and a
concrete request. -/
theorem c1_failure_behaviour_witness :
    process_chat (fun _ => Except.error "ollama unreachable")
        { message := "headache", conversation_id := some "case-1", user_id := none,
          include_history := true, conversation_history := none }
      = Except.error { status_code := 500, detail := "AI processing failed: " ++ "ollama unreachable" } ∧
    chat_triage (fun _ => Except.error "ollama unreachable")
        { message := "headache", conversation_id := some "case-1", user_id := none,
          include_history := true, conversation_history := none }
      = chat_triage_fallback :=
  c1_failure_behaviour (fun _ => Except.error "ollama unreachable")
    { message := "headache", conversation_id := some "case-1", user_id := none,
      include_history := true, conversation_history := none }
    "ollama unreachable" (fun _ => rfl)

/-- A concrete persisted case record used to evaluate `get_case`. -/
def sample_case : CaseRecord :=
  { case_id := "case-42"
    turns := [("I have a headache", "Based on what you told me...")]
    symptom_frame := { chief_complaint := some "headache", duration := some "1 hour",
                       severity_self := some "mild", age_band := none,
                       associated_symptoms := [] }
    triage := { severity_level := some "GREEN", rationale := some "no red flags identified",
                recommended_action := some "self-care", red_flags_triggered := [],
                care_instructions := [], confidence := some (3/5) }
    action := { type := some "self_care", specialization := none, urgency := some "routine",
                instructions := ["rest"], resources := [] }
    summary := { patient_summary := "p", clinician_summary := "c" }
    status := "COMPLETE" }

/-- C6: evaluated at an absent case id, the `try` body of `get_case` raises
the intended 404, but the handler's catch-all `except Exception` re-wraps its
own `HTTPException` and the endpoint answers 500 with detail
"404: Case not found" instead of a 404 response; an existing case id is
returned unchanged. -/
theorem c6_get_case_wraps_404_as_500 :
    get_case_body [] "nonexistent"
      = Except.error { status_code := 404, detail := "Case not found" } ∧
    get_case [] "nonexistent"
      = Except.error { status_code := 500, detail := "404: Case not found" } ∧
    get_case [("case-42", sample_case)] "case-42" = Except.ok sample_case :=
  ⟨rfl, rfl, rfl⟩

/-- A concrete workflow state used to evaluate the handlers on an empty
message. -/
def empty_message_state : WorkflowState :=
  { case_id := some "case-empty"
    symptoms := { chief_complaint := none, duration := none, severity_self := none,
                  age_band := none, associated_symptoms := [] }
    triage := { severity_level := some "GREEN", rationale := some "no red flags identified",
                recommended_action := some "self-care", red_flags_triggered := [],
                care_instructions := [], confidence := some (1/5) }
    action := { type := some "self_care", specialization := none, urgency := some "routine",
                instructions := [], resources := [] }
    summary := { patient_summary := "p", clinician_summary := "c" } }

/-- C7: pydantic accepts an empty message and a whitespace-only message (the
`ChatRequest` model only requires the field's presence), and `process_chat`
then runs the workflow on the empty message and returns its result as a
success response — there is no rejection before the state machine, although
`tests/test_api.py::test_chat_empty_message` expects a 422. -/
theorem c7_empty_message_not_rejected :
    validate_chat_request
        { message := some "", conversation_id := none, user_id := some "test_user_123",
          include_history := none, conversation_history := none }
      = Except.ok
          { message := "", conversation_id := none, user_id := some "test_user_123",
            include_history := true, conversation_history := none } ∧
    validate_chat_request
        { message := some "   ", conversation_id := none, user_id := none,
          include_history := none, conversation_history := none }
      = Except.ok
          { message := "   ", conversation_id := none, user_id := none,
            include_history := true, conversation_history := none } ∧
    process_chat (fun _ => Except.ok empty_message_state)
        { message := "", conversation_id := none, user_id := some "test_user_123",
          include_history := true, conversation_history := none }
      = Except.ok
          { case_id := some "case-empty"
            symptoms := empty_message_state.symptoms
            triage := empty_message_state.triage
            action := empty_message_state.action
            summary := empty_message_state.summary
            message := green_message
            status := "success" } :=
  ⟨rfl, rfl, rfl⟩

/-- A concrete workflow state whose merged frame has a chief complaint and
one associated symptom, and for which classification completed. -/
def one_symptom_state : WorkflowState :=
  { case_id := some "case-8"
    symptoms := { chief_complaint := some "headache", duration := some "2 days",
                  severity_self := none, age_band := none,
                  associated_symptoms := ["nausea"] }
    triage := { severity_level := some "GREEN", rationale := some "no red flags identified",
                recommended_action := some "self-care", red_flags_triggered := [],
                care_instructions := ["rest"], confidence := some (4/5) }
    action := { type := some "self_care", specialization := none, urgency := some "routine",
                instructions := ["rest"], resources := [] }
    summary := { patient_summary := "p", clinician_summary := "c" } }

/-- C8 counterexample: on a turn whose merged frame has a chief complaint
(so the claim's more-info condition — lacking both fields — is false) and
whose classification produced a triage result, the `needsMoreInfo` signal
returned by `chat_triage` is nonetheless `true`: the signal is
`len(associated_symptoms) < 2`, not the lacking-both-fields condition. -/
theorem c8_needs_more_info_counterexample :
    (chat_triage (fun _ => Except.ok one_symptom_state)
        { message := "my head hurts", conversation_id := some "case-8", user_id := none,
          include_history := true, conversation_history := none }).needsMoreInfo = true ∧
    one_symptom_state.symptoms.chief_complaint = some "headache" ∧
    (chat_triage (fun _ => Except.ok one_symptom_state)
        { message := "my head hurts", conversation_id := some "case-8", user_id := none,
          include_history := true, conversation_history := none }).severity = "self_care" :=
  ⟨rfl, rfl, rfl⟩

/-- C8 amended: on every successfully completed turn, the `needsMoreInfo`
signal that `chat_triage` returns to the caller is exactly the test that the
merged frame holds fewer than two associated symptoms, independent of the
chief complaint and of the turn count. -/
theorem c8_needs_more_info_threshold (invoke : WorkflowInput → Except String WorkflowState)
    (request : ChatRequest) (result_state : WorkflowState)
    (h : invoke (chat_triage_input request) = Except.ok result_state) :
    (chat_triage invoke request).needsMoreInfo
      = decide (result_state.symptoms.associated_symptoms.length < 2) := by
  simp [chat_triage, h]

/-- C8 witness: the threshold evaluated on the one-symptom state. -/
theorem c8_needs_more_info_threshold_witness :
    (chat_triage (fun _ => Except.ok one_symptom_state)
        { message := "my head hurts", conversation_id := none, user_id := some "patient-7",
          include_history := true, conversation_history := none }).needsMoreInfo
      = decide (one_symptom_state.symptoms.associated_symptoms.length < 2) :=
  c8_needs_more_info_threshold (fun _ => Except.ok one_symptom_state)
    { message := "my head hurts", conversation_id := none, user_id := some "patient-7",
      include_history := true, conversation_history := none }
    one_symptom_state rfl
